import Mathlib

/-!
Shallow embedding of the session-scoped document/data lifecycle of the
Tax Advisor backend (`api/database/utils.py`, `api/utils/cleanup.py`,
`api/main.py`) together with proofs of the specification claims.

Modelling conventions:
* Timestamps are `Nat` (an abstract monotone clock; the SQLite text
  rendering of a `datetime` is order-isomorphic to this for well-formed
  values, so `<` on `Nat` models both the SQL comparison and the Python
  comparison).
* Monetary amounts are `ℚ` (Python float arithmetic is modelled by exact
  rational arithmetic; the claims are about the formula and comparison
  structure, not IEEE-754 rounding).
* Each SQLite table is a `List` of row structures in rowid order;
  `AUTOINCREMENT` counters are carried explicitly in the store state.
* `sqlite3` errors / Python exceptions are modelled with `Except String`.
-/

namespace TaxAdvisor

/-- Value found in the `expires_at` column as seen by
`DatabaseUtils.validate_session`.  With `detect_types` the driver usually
hands back a `datetime` (`dt`); otherwise the code falls back to string
parsing.  The constructors classify the stored text by which parser of the
fallback cascade accepts it, carrying the parsed time; `strBad` is text
accepted by none of the three parsers. -/
inductive StoredExpiry where
  | dt (t : Nat)
  | strIso (t : Nat)
  | strFrac (t : Nat)
  | strPlain (t : Nat)
  | strBad (s : String)
deriving Repr, DecidableEq

/-- Row of `user_sessions` (`session_id TEXT PRIMARY KEY`,
`created_at`, `expires_at TIMESTAMP NOT NULL`). -/
structure SessionRow where
  session_id : String
  created_at : Nat
  expires_at : StoredExpiry
deriving Repr, DecidableEq

/-- Row of `documents`. -/
structure DocumentRow where
  id : Nat
  session_id : String
  file_name : String
  file_url : String
  file_type : String
  upload_timestamp : Nat
deriving Repr, DecidableEq

/-- Row of `user_inputs`. -/
structure UserInputRow where
  id : Nat
  session_id : String
  input_type : String
  field_name : String
  field_value : String
  timestamp : Nat
deriving Repr, DecidableEq

/-- Row of `tax_calculations`. -/
structure CalcRow where
  id : Nat
  session_id : String
  gross_income : ℚ
  tax_old_regime : ℚ
  tax_new_regime : ℚ
  total_deductions : ℚ
  net_tax : ℚ
  calculation_timestamp : Nat
deriving Repr, DecidableEq

/-- Row of `ai_conversations`. -/
structure ConvRow where
  id : Nat
  session_id : String
  user_message : String
  ai_response : String
  timestamp : Nat
deriving Repr, DecidableEq

/-- State of the SQLite store: the five tables in rowid order plus the
`AUTOINCREMENT` counters of the four dependent tables. -/
structure DB where
  sessions : List SessionRow
  documents : List DocumentRow
  user_inputs : List UserInputRow
  tax_calculations : List CalcRow
  ai_conversations : List ConvRow
  next_document_id : Nat
  next_user_input_id : Nat
  next_tax_calculation_id : Nat
  next_ai_conversation_id : Nat
deriving Repr, DecidableEq

/-- Empty store, as created by the migrations (`AUTOINCREMENT` starts
row ids at 1). -/
def emptyDB : DB :=
  { sessions := [], documents := [], user_inputs := [], tax_calculations := []
    ai_conversations := [], next_document_id := 1, next_user_input_id := 1
    next_tax_calculation_id := 1, next_ai_conversation_id := 1 }

/-- `datetime.fromisoformat(expires_at_str)` of the first fallback:
succeeds exactly on iso-classified text. -/
def tryFromisoformat : StoredExpiry → Option Nat
  | .strIso t => some t
  | _ => none

/-- `datetime.strptime(expires_at_str, "%Y-%m-%d %H:%M:%S.%f")` of the
second fallback. -/
def tryStrptimeFrac : StoredExpiry → Option Nat
  | .strFrac t => some t
  | _ => none

/-- Final `datetime.strptime(expires_at_str, "%Y-%m-%d %H:%M:%S")`.
This call is NOT wrapped in a `try` in the source: on text it cannot
parse it raises (`.error`). -/
def tryStrptimePlain : StoredExpiry → Except String Nat
  | .strPlain t => .ok t
  | .strBad s => .error ("time data " ++ s ++ " does not match format Y-m-d H:M:S")
  | .dt t => .ok t
  | .strIso t => .ok t
  | .strFrac t => .ok t

/-- Parse cascade of `DatabaseUtils.validate_session` (utils.py:37-47):
an `isinstance(..., datetime)` value is used directly, otherwise
`fromisoformat`, then `strptime` with fractional seconds, then plain
`strptime` — whose failure propagates as an exception. -/
def pyParseTimestamp (v : StoredExpiry) : Except String Nat :=
  match v with
  | .dt t => .ok t
  | v =>
    match tryFromisoformat v with
    | some t => .ok t
    | none =>
      match tryStrptimeFrac v with
      | some t => .ok t
      | none => tryStrptimePlain v

/-- `DatabaseUtils.validate_session` (utils.py:25-48): fetch the row by
primary key, return `False` when absent, otherwise parse the stored
expiry and compare `datetime.now() < expires_at` strictly.  A parse
failure of the final fallback propagates as an error. -/
def validate_session (db : DB) (session_id : String) (now : Nat) :
    Except String Bool :=
  match db.sessions.find? (fun s => decide (s.session_id = session_id)) with
  | none => .ok false
  | some row =>
    match pyParseTimestamp row.expires_at with
    | .ok t => .ok (decide (now < t))
    | .error e => .error e

/-- SQL predicate `expires_at < ?` of the expiry sweep, applied to the
stored column value with the rendered current time as parameter.  For
well-formed timestamp text the lexicographic TEXT comparison agrees with
chronological order, so it is modelled as `<` on the parsed time; for
unparseable text the raw lexicographic comparison against the rendered
clock is modelled on the decimal rendering of the clock. -/
def sqlExpiredBefore (v : StoredExpiry) (now : Nat) : Bool :=
  match v with
  | .dt t => decide (t < now)
  | .strIso t => decide (t < now)
  | .strFrac t => decide (t < now)
  | .strPlain t => decide (t < now)
  | .strBad s => decide (s < toString now)

/-- `DatabaseUtils.cleanup_expired_sessions` (utils.py:50-72): select the
ids of sessions with `expires_at <` now, return 0 when there are none,
otherwise delete the rows of the four dependent tables whose
`session_id` is in the list, then the session rows, and return how many
session ids were selected. -/
def cleanup_expired_sessions (db : DB) (now : Nat) : DB × Nat :=
  let expired_sessions :=
    (db.sessions.filter (fun s => sqlExpiredBefore s.expires_at now)).map
      (fun s => s.session_id)
  if expired_sessions.isEmpty then (db, 0)
  else
    ({ db with
        documents :=
          db.documents.filter (fun r => decide (r.session_id ∉ expired_sessions))
        user_inputs :=
          db.user_inputs.filter (fun r => decide (r.session_id ∉ expired_sessions))
        tax_calculations :=
          db.tax_calculations.filter (fun r => decide (r.session_id ∉ expired_sessions))
        ai_conversations :=
          db.ai_conversations.filter (fun r => decide (r.session_id ∉ expired_sessions))
        sessions :=
          db.sessions.filter (fun s => decide (s.session_id ∉ expired_sessions)) },
      expired_sessions.length)

/-- Aggregate returned by `get_session_data` for a valid session: the
four dependent-table result sets. -/
structure SessionData where
  documents : List DocumentRow
  user_inputs : List UserInputRow
  tax_calculations : List CalcRow
  ai_conversations : List ConvRow
deriving Repr, DecidableEq

/-- `ORDER BY ts DESC` on a table scanned in rowid order, modelled as a
stable sort (ties keep insertion order, matching the observed SQLite
behaviour). -/
def orderByDesc (ts : α → Nat) (rows : List α) : List α :=
  rows.insertionSort (fun a b => ts b ≤ ts a)

/-- `ORDER BY ts ASC`, modelled as a stable sort. -/
def orderByAsc (ts : α → Nat) (rows : List α) : List α :=
  rows.insertionSort (fun a b => ts a ≤ ts b)

/-- `DatabaseUtils.get_session_data` (utils.py:74-109): returns `{}`
(here `none`) without touching the dependent tables when
`validate_session` is false; otherwise returns the four result sets,
documents / user inputs / tax calculations most-recent-first and AI
conversations oldest-first.  An error raised by `validate_session`
propagates. -/
def get_session_data (db : DB) (session_id : String) (now : Nat) :
    Except String (Option SessionData) :=
  match validate_session db session_id now with
  | .error e => .error e
  | .ok false => .ok none
  | .ok true =>
    .ok (some
      { documents :=
          orderByDesc (fun d => d.upload_timestamp)
            (db.documents.filter (fun d => decide (d.session_id = session_id)))
        user_inputs :=
          orderByDesc (fun r => r.timestamp)
            (db.user_inputs.filter (fun r => decide (r.session_id = session_id)))
        tax_calculations :=
          orderByDesc (fun c => c.calculation_timestamp)
            (db.tax_calculations.filter (fun c => decide (c.session_id = session_id)))
        ai_conversations :=
          orderByAsc (fun c => c.timestamp)
            (db.ai_conversations.filter (fun c => decide (c.session_id = session_id))) })

/-- `DatabaseUtils.save_document` (utils.py:111-119): unconditional
INSERT — no session lookup of any kind — returning `cursor.lastrowid`.
`now` models the `CURRENT_TIMESTAMP` column default. -/
def save_document (db : DB) (session_id file_name file_url file_type : String)
    (now : Nat) : DB × Nat :=
  ({ db with
      documents := db.documents ++
        [{ id := db.next_document_id, session_id := session_id
           file_name := file_name, file_url := file_url
           file_type := file_type, upload_timestamp := now }]
      next_document_id := db.next_document_id + 1 },
   db.next_document_id)

/-- `DatabaseUtils.save_user_input` (utils.py:121-129): unconditional
INSERT returning `cursor.lastrowid`. -/
def save_user_input (db : DB) (session_id input_type field_name field_value : String)
    (now : Nat) : DB × Nat :=
  ({ db with
      user_inputs := db.user_inputs ++
        [{ id := db.next_user_input_id, session_id := session_id
           input_type := input_type, field_name := field_name
           field_value := field_value, timestamp := now }]
      next_user_input_id := db.next_user_input_id + 1 },
   db.next_user_input_id)

/-- `DatabaseUtils.save_tax_calculation` (utils.py:131-142):
unconditional INSERT returning `cursor.lastrowid`. -/
def save_tax_calculation (db : DB) (session_id : String)
    (gross_income tax_old_regime tax_new_regime total_deductions net_tax : ℚ)
    (now : Nat) : DB × Nat :=
  ({ db with
      tax_calculations := db.tax_calculations ++
        [{ id := db.next_tax_calculation_id, session_id := session_id
           gross_income := gross_income, tax_old_regime := tax_old_regime
           tax_new_regime := tax_new_regime, total_deductions := total_deductions
           net_tax := net_tax, calculation_timestamp := now }]
      next_tax_calculation_id := db.next_tax_calculation_id + 1 },
   db.next_tax_calculation_id)

/-- `DatabaseUtils.save_ai_conversation` (utils.py:144-152):
unconditional INSERT returning `cursor.lastrowid`. -/
def save_ai_conversation (db : DB) (session_id user_message ai_response : String)
    (now : Nat) : DB × Nat :=
  ({ db with
      ai_conversations := db.ai_conversations ++
        [{ id := db.next_ai_conversation_id, session_id := session_id
           user_message := user_message, ai_response := ai_response
           timestamp := now }]
      next_ai_conversation_id := db.next_ai_conversation_id + 1 },
   db.next_ai_conversation_id)

/-! ### File cleanup service (`api/utils/cleanup.py`)

The upload directory is modelled as the list of names of the regular
files it contains (`os.listdir` filtered by `os.path.isfile`; directory
entries are distinct by construction). -/

/-- `os.path.join(settings.UPLOAD_FOLDER, filename)`. -/
def joinPath (folder name : String) : String := folder ++ "/" ++ name

/-- `row['file_url'].split('/')[-1]` (cleanup.py:53): the text after
the final slash (the whole text when no slash occurs), computed by a
character fold that restarts its accumulator at every `'/'`. -/
def lastUrlComponent (url : String) : String :=
  String.mk (url.data.foldl (fun acc c => if c = '/' then [] else acc ++ [c]) [])

/-- Set of file names referenced by `documents` rows
(cleanup.py:49-54). -/
def referencedNames (db : DB) : List String :=
  db.documents.map (fun d => lastUrlComponent d.file_url)

/-- `FileCleanupService.find_orphaned_files` (cleanup.py:34-63): empty
when the upload folder does not exist, otherwise the full paths of the
directory entries whose name is referenced by no `documents` row. -/
def find_orphaned_files (folder : String) (folderExists : Bool)
    (disk : List String) (db : DB) : List String :=
  if folderExists then
    (disk.filter (fun n => decide (n ∉ referencedNames db))).map
      (fun n => joinPath folder n)
  else []

/-- Deletion loop of `FileCleanupService.cleanup_expired_files`
(cleanup.py:22-27): each orphan path is removed from disk inside its own
`try`; a failing removal (`removeFails`) is logged and the loop
continues.  Returns the remaining disk contents and the paths whose
removal failed. -/
def removeOrphanLoop (folder : String) (removeFails : String → Bool) :
    List String → List String → List String × List String
  | disk, [] => (disk, [])
  | disk, p :: ps =>
    if removeFails p then
      let r := removeOrphanLoop folder removeFails disk ps
      (r.1, p :: r.2)
    else
      removeOrphanLoop folder removeFails
        (disk.filter (fun n => decide (joinPath folder n ≠ p))) ps

/-- Outcome of one `cleanup_expired_files` sweep. -/
structure CleanupReport where
  db : DB
  disk : List String
  expired_count : Nat
  orphaned : List String
  failed : List String
deriving Repr, DecidableEq

/-- `FileCleanupService.cleanup_expired_files` (cleanup.py:14-32): run
the session expiry sweep, compute the orphans against the updated store,
then best-effort delete each orphan. -/
def cleanup_expired_files (folder : String) (folderExists : Bool)
    (disk : List String) (db : DB) (now : Nat) (removeFails : String → Bool) :
    CleanupReport :=
  let swept := cleanup_expired_sessions db now
  let orphaned := find_orphaned_files folder folderExists disk swept.1
  let r := removeOrphanLoop folder removeFails disk orphaned
  { db := swept.1, disk := r.1, expired_count := swept.2
    orphaned := orphaned, failed := r.2 }

/-! ### Ingestion workflow and tax calculation (`api/main.py`) -/

/-- Result of the external extractor
`extract_salary_slip_data(file_path)`: any field may be absent. -/
structure Extracted where
  employee : List (String × String)
  earnings : List (String × ℚ)
  deductions : List (String × ℚ)
  gross_salary : Option ℚ
  net_salary : Option ℚ
  reimbursement : Option ℚ
deriving Repr, DecidableEq

/-- `gross = extracted.get('gross_salary') or 0` (main.py:143): an
absent gross degrades to zero (and `0 or 0` is again zero). -/
def grossOrZero (e : Extracted) : ℚ := e.gross_salary.getD 0

/-- `deductions_total = sum(extracted.get('deductions', {}).values())`
(main.py:144): an absent or empty deductions map sums to zero. -/
def deductionsTotal (e : Extracted) : ℚ := (e.deductions.map Prod.snd).sum

/-- Old-regime tax (main.py:146):
`max(gross - deductions_total, 0) * 0.2`. -/
def computeTaxOld (gross deductions_total : ℚ) : ℚ :=
  max (gross - deductions_total) 0 * 0.2

/-- New-regime tax (main.py:148): `gross * 0.15`. -/
def computeTaxNew (gross : ℚ) : ℚ := gross * 0.15

/-- `net_tax = min(tax_old, tax_new)` (main.py:149). -/
def computeNetTax (gross deductions_total : ℚ) : ℚ :=
  min (computeTaxOld gross deductions_total) (computeTaxNew gross)

/-- Display classification of the winning regime. -/
inductive Regime where
  | old
  | new
  | equal
deriving Repr, DecidableEq

/-- `best_regime` of `display_pdf` (main.py:236-243): `'Old Regime'`
when old is strictly lower, `'New Regime'` when new is strictly lower,
`'Both are equal'` otherwise. -/
def best_regime (tax_old tax_new : ℚ) : Regime :=
  if tax_old < tax_new then .old
  else if tax_new < tax_old then .new
  else .equal

/-- `s.lower()` containment test used by the filename heuristics,
via `str.splitOn`: `pat` occurs in `s` iff splitting on it yields more
than one piece. -/
def containsSub (s pat : String) : Bool :=
  decide ((s.splitOn pat).length ≠ 1)

/-- File-type heuristic of `upload_pdf` (main.py:110-116). -/
def classifyFileType (filename : String) : String :=
  let lower := filename.toLower
  if containsSub lower "form16" || containsSub lower "form_16" then "form_16"
  else if containsSub lower "salary" then "salary_slip"
  else "pay_slip"

/-- Failure injection for the `try` body of `upload_pdf`:
`save_document_fails` models a storage error inside
`save_document` — i.e. a failure after the file is on disk but before
the `documents` row commits; `later_step_fails` models any failure after
that commit (the extractor call, a `save_user_input`, the
`save_extracted_meta` call — absent from `DatabaseUtils`, so it raises
`AttributeError` whenever reached with meta fields — or the
`save_tax_calculation` call, which in the source always raises
`TypeError` because it passes an `employee_name` keyword the callee does
not accept). -/
structure UploadFailures where
  save_document_fails : Bool
  later_step_fails : Bool
deriving Repr, DecidableEq

/-- Outcome of the `try`/`except` portion of `upload_pdf`: final store,
final disk contents, and whether the handler re-raised as a 500
(`ok = false`) or the body returned the success JSON (`ok = true`). -/
structure UploadResult where
  db : DB
  disk : List String
  ok : Bool
deriving Repr, DecidableEq

/-- Store the extracted employee / earnings / deductions fields as
`user_inputs` rows (main.py:129-134). -/
def storeExtracted (db : DB) (session_id : String) (e : Extracted) (now : Nat) : DB :=
  let db1 := e.employee.foldl
    (fun d kv => (save_user_input d session_id "employee" kv.1 kv.2 now).1) db
  let db2 := e.earnings.foldl
    (fun d kv => (save_user_input d session_id "earnings" kv.1 (toString kv.2) now).1) db1
  e.deductions.foldl
    (fun d kv => (save_user_input d session_id "deductions" kv.1 (toString kv.2) now).1) db2

/-- The `try`/`except` portion of `upload_pdf` (main.py:104-179),
entered after validation with a freshly generated `uniqueName`: write
the file to disk, commit the `documents` row, run extraction and the
dependent writes, compute and store the tax calculation.  On any raise
the handler deletes the just-written file (`os.path.exists` then
`os.remove`) and re-raises as HTTP 500. -/
def upload_pdf_after_validation (db0 : DB) (disk0 : List String)
    (session_id file_name uniqueName : String) (e : Extracted) (now : Nat)
    (f : UploadFailures) : UploadResult :=
  let disk1 := disk0 ++ [uniqueName]
  let removeUpload := fun (d : List String) => d.filter (fun n => decide (n ≠ uniqueName))
  if f.save_document_fails then
    { db := db0, disk := removeUpload disk1, ok := false }
  else
    let r1 := save_document db0 session_id file_name
      ("/uploads/" ++ uniqueName) (classifyFileType file_name) now
    if f.later_step_fails then
      { db := r1.1, disk := removeUpload disk1, ok := false }
    else
      let db2 := storeExtracted r1.1 session_id e now
      let gross := grossOrZero e
      let dtot := deductionsTotal e
      let db3 := (save_tax_calculation db2 session_id gross
        (computeTaxOld gross dtot) (computeTaxNew gross) dtot
        (computeNetTax gross dtot) now).1
      { db := db3, disk := disk1, ok := true }

/-- Scenario harness: insert three conversation entries
`M1, M2, M3` for one session, in that order, at the given row
timestamps. -/
def insertThreeConvs (db : DB) (sid : String) (m1 r1 m2 r2 m3 r3 : String)
    (t1 t2 t3 : Nat) : DB :=
  (save_ai_conversation
    ((save_ai_conversation
      ((save_ai_conversation db sid m1 r1 t1).1) sid m2 r2 t2).1)
    sid m3 r3 t3).1

/-- Scenario harness: insert three tax calculations with gross incomes
`g1, g2, g3`, in that order, at the given row timestamps. -/
def insertThreeCalcs (db : DB) (sid : String) (g1 g2 g3 : ℚ)
    (t1 t2 t3 : Nat) : DB :=
  (save_tax_calculation
    ((save_tax_calculation
      ((save_tax_calculation db sid g1 0 0 0 0 t1).1) sid g2 0 0 0 0 t2).1)
    sid g3 0 0 0 0 t3).1

/-- Scenario harness: insert three documents with file names
`f1, f2, f3`, in that order, at the given row timestamps. -/
def insertThreeDocs (db : DB) (sid : String) (f1 f2 f3 : String)
    (t1 t2 t3 : Nat) : DB :=
  (save_document
    ((save_document
      ((save_document db sid f1 ("/uploads/" ++ f1) "pay_slip" t1).1)
      sid f2 ("/uploads/" ++ f2) "pay_slip" t2).1)
    sid f3 ("/uploads/" ++ f3) "pay_slip" t3).1

/-- Scenario harness: insert three user-input field records with field
names `n1, n2, n3`, in that order, at the given row timestamps. -/
def insertThreeInputs (db : DB) (sid : String) (n1 v1 n2 v2 n3 v3 : String)
    (t1 t2 t3 : Nat) : DB :=
  (save_user_input
    ((save_user_input
      ((save_user_input db sid "employee" n1 v1 t1).1)
      sid "employee" n2 v2 t2).1)
    sid "employee" n3 v3 t3).1

/-- Scenario harness for the ordering claim: three rows inserted in
order into each of the four dependent tables of one session. -/
def fullSessionScenario (db : DB) (sid : String)
    (m1 r1 m2 r2 m3 r3 : String) (g1 g2 g3 : ℚ)
    (f1 f2 f3 n1 v1 n2 v2 n3 v3 : String) (t1 t2 t3 : Nat) : DB :=
  insertThreeInputs
    (insertThreeDocs
      (insertThreeCalcs (insertThreeConvs db sid m1 r1 m2 r2 m3 r3 t1 t2 t3)
        sid g1 g2 g3 t1 t2 t3)
      sid f1 f2 f3 t1 t2 t3)
    sid n1 v1 n2 v2 n3 v3 t1 t2 t3

/-! ### Helper lemmas -/

/-- `validate_session` reads only the `user_sessions` table. -/
theorem validate_session_congr (d1 d2 : DB) (session_id : String) (now : Nat)
    (h : d1.sessions = d2.sessions) :
    validate_session d1 session_id now = validate_session d2 session_id now := by
  unfold validate_session
  rw [h]

/-- Splitting a list by a Boolean predicate preserves the total length. -/
theorem filter_length_partition (p : α → Bool) (l : List α) :
    (l.filter p).length + (l.filter (fun a => !(p a))).length = l.length := by
  induction l with
  | nil => rfl
  | cons a l ih => cases h : p a <;> simp [List.filter_cons, h] <;> omega

/-- Trichotomy of the display classification: `old` exactly when the
old-regime amount is strictly lower. -/
theorem best_regime_eq_old_iff (a b : ℚ) : best_regime a b = Regime.old ↔ a < b := by
  unfold best_regime
  split_ifs with h1 h2
  · simpa using h1
  · simp only [reduceCtorEq, false_iff]
    exact h1
  · simp only [reduceCtorEq, false_iff]
    exact h1

/-- Trichotomy of the display classification: `new` exactly when the
new-regime amount is strictly lower. -/
theorem best_regime_eq_new_iff (a b : ℚ) : best_regime a b = Regime.new ↔ b < a := by
  unfold best_regime
  split_ifs with h1 h2
  · simp only [reduceCtorEq, false_iff]
    exact fun h => absurd h (lt_asymm h1)
  · simpa using h2
  · simp only [reduceCtorEq, false_iff]
    exact h2

/-- Trichotomy of the display classification: `equal` exactly on exact
equality. -/
theorem best_regime_eq_equal_iff (a b : ℚ) : best_regime a b = Regime.equal ↔ a = b := by
  unfold best_regime
  split_ifs with h1 h2
  · simp only [reduceCtorEq, false_iff]
    exact fun h => by rw [h] at h1; exact absurd h1 (lt_irrefl b)
  · simp only [reduceCtorEq, false_iff]
    exact fun h => by rw [h] at h2; exact absurd h2 (lt_irrefl b)
  · simp only [true_iff]
    exact le_antisymm (not_lt.mp h2) (not_lt.mp h1)

/-- The sweep is a no-op returning 0 when no stored session satisfies
the SQL expiry comparison. -/
theorem cleanup_of_no_expired (db : DB) (now : Nat)
    (h : db.sessions.filter (fun s => sqlExpiredBefore s.expires_at now) = []) :
    cleanup_expired_sessions db now = (db, 0) := by
  simp only [cleanup_expired_sessions]
  rw [h]
  rfl

/-- Characterisation of the best-effort deletion loop: it always
processes the whole orphan list, the surviving disk entries are exactly
those that are not orphans or whose deletion failed, and every failed
deletion is recorded. -/
theorem removeOrphanLoop_spec (folder : String) (removeFails : String → Bool)
    (orphans : List String) : ∀ disk : List String,
    removeOrphanLoop folder removeFails disk orphans =
      (disk.filter (fun n => removeFails (joinPath folder n) ||
          decide (joinPath folder n ∉ orphans)),
       orphans.filter removeFails) := by
  induction orphans with
  | nil =>
    intro disk
    simp [removeOrphanLoop]
  | cons p ps ih =>
    intro disk
    cases hf : removeFails p
    · simp only [removeOrphanLoop, hf, Bool.false_eq_true, if_false, ih,
        List.filter_filter, Prod.mk.injEq]
      refine ⟨List.filter_congr (fun n hn => ?_), ?_⟩
      · by_cases hj : joinPath folder n = p
        · simp [hj, hf, List.mem_cons]
        · simp [hj, List.mem_cons]
      · simp [List.filter_cons, hf]
    · simp only [removeOrphanLoop, hf, if_true, ih, Prod.mk.injEq]
      refine ⟨List.filter_congr (fun n hn => ?_), ?_⟩
      · by_cases hj : joinPath folder n = p
        · simp [hj, hf, List.mem_cons]
        · simp [hj, List.mem_cons]
      · simp [List.filter_cons, hf]

/-- Joining distinct names under the same folder yields distinct
paths. -/
theorem joinPath_left_inj (folder a b : String) :
    joinPath folder a = joinPath folder b ↔ a = b := by
  unfold joinPath
  constructor
  · intro h
    have hd := String.ext_iff.mp h
    simp only [String.data_append] at hd
    exact String.ext (List.append_cancel_left hd)
  · intro h
    rw [h]

/-! ### Claim theorems -/

/-- C2 counterexample: a stored expiry that none of the three parsers of
the fallback cascade accepts makes `validate_session` raise (the final
`strptime` is not wrapped in a `try`), instead of returning false as the
claim states. -/
theorem claim2_parse_failure_raises :
    validate_session
        { emptyDB with sessions := [⟨"s", 0, .strBad "not a timestamp"⟩] } "s" 0 =
      .error "time data not a timestamp does not match format Y-m-d H:M:S" := rfl

/-- C2 (amended): `validate_session` returns false for a missing
identifier and, when the stored expiry is parseable by the cascade,
returns exactly `now < expires_at` (strict); but a stored expiry that no
parser accepts propagates an exception to the caller instead of being
treated as invalid. -/
theorem claim2_is_valid_behaviour (db : DB) (sid : String) (now : Nat) :
    (db.sessions.find? (fun s => decide (s.session_id = sid)) = none →
      validate_session db sid now = .ok false) ∧
    (∀ row, db.sessions.find? (fun s => decide (s.session_id = sid)) = some row →
      (∀ t, pyParseTimestamp row.expires_at = .ok t →
        validate_session db sid now = .ok (decide (now < t))) ∧
      (∀ e, pyParseTimestamp row.expires_at = .error e →
        validate_session db sid now = .error e)) := by
  refine ⟨fun h => by unfold validate_session; rw [h], fun row h => ?_⟩
  have hrow : validate_session db sid now =
      match pyParseTimestamp row.expires_at with
      | .ok t => .ok (decide (now < t))
      | .error e => .error e := by
    unfold validate_session
    rw [h]
  exact ⟨fun t ht => by rw [hrow, ht], fun e he => by rw [hrow, he]⟩

/-- C2 witness: on a store holding one session `"s"` expiring at time
10, the identifier `"s"` is valid at time 0 and the unknown identifier
`"y"` is reported invalid, not an error. -/
theorem claim2_is_valid_behaviour_witness :
    validate_session { emptyDB with sessions := [⟨"s", 0, .dt 10⟩] } "s" 0 = .ok true ∧
    validate_session { emptyDB with sessions := [⟨"s", 0, .dt 10⟩] } "y" 0 = .ok false := by
  constructor
  · exact ((claim2_is_valid_behaviour
      { emptyDB with sessions := [⟨"s", 0, .dt 10⟩] } "s" 0).2
      ⟨"s", 0, .dt 10⟩ rfl).1 10 rfl
  · exact (claim2_is_valid_behaviour
      { emptyDB with sessions := [⟨"s", 0, .dt 10⟩] } "y" 0).1 rfl

/-- C4: running the expiry sweep a second time, when no session of the
post-sweep store has meanwhile expired, removes nothing and returns 0. -/
theorem claim4_expire_sweep_idempotent (db : DB) (now now2 : Nat)
    (h : ∀ s ∈ (cleanup_expired_sessions db now).1.sessions,
        sqlExpiredBefore s.expires_at now2 = false) :
    cleanup_expired_sessions (cleanup_expired_sessions db now).1 now2 =
      ((cleanup_expired_sessions db now).1, 0) :=
  cleanup_of_no_expired _ now2
    (List.filter_eq_nil_iff.mpr (fun a ha => by simp [h a ha]))

/-- C4 witness: a store holding one session expiring at time 10 is
untouched by two sweeps at time 5. -/
theorem claim4_expire_sweep_idempotent_witness :
    cleanup_expired_sessions
        (cleanup_expired_sessions { emptyDB with sessions := [⟨"s", 0, .dt 10⟩] } 5).1 5 =
      ((cleanup_expired_sessions { emptyDB with sessions := [⟨"s", 0, .dt 10⟩] } 5).1, 0) :=
  claim4_expire_sweep_idempotent { emptyDB with sessions := [⟨"s", 0, .dt 10⟩] } 5 5
    (by decide)

/-- C5: the tax calculation is exactly the specified formula — old
regime taxes the deduction-clamped base at 20%, new regime taxes gross
at a flat 15%, net tax is their minimum, the regime classification is by
strict comparison with exact-equality ties, absent gross and absent
deduction data degrade to zero — and the two reference examples hold. -/
theorem claim5_tax_calculation (g d : ℚ) (hg : 0 ≤ g) (hd : 0 ≤ d) :
    computeTaxOld g d = max (g - d) 0 * (2 / 10) ∧
    computeTaxNew g = g * (15 / 100) ∧
    computeNetTax g d = min (computeTaxOld g d) (computeTaxNew g) ∧
    (best_regime (computeTaxOld g d) (computeTaxNew g) = Regime.old ↔
      computeTaxOld g d < computeTaxNew g) ∧
    (best_regime (computeTaxOld g d) (computeTaxNew g) = Regime.new ↔
      computeTaxNew g < computeTaxOld g d) ∧
    (best_regime (computeTaxOld g d) (computeTaxNew g) = Regime.equal ↔
      computeTaxOld g d = computeTaxNew g) ∧
    (∀ e : Extracted, e.gross_salary = none → grossOrZero e = 0) ∧
    (∀ e : Extracted, e.deductions = [] → deductionsTotal e = 0) ∧
    computeTaxOld 500000 50000 = 90000 ∧
    computeTaxNew 500000 = 75000 ∧
    computeNetTax 500000 50000 = 75000 ∧
    best_regime (computeTaxOld 500000 50000) (computeTaxNew 500000) = Regime.new ∧
    computeTaxOld 0 0 = 0 ∧
    computeTaxNew 0 = 0 ∧
    computeNetTax 0 0 = 0 ∧
    best_regime (computeTaxOld 0 0) (computeTaxNew 0) = Regime.equal := by
  refine ⟨by norm_num [computeTaxOld], by norm_num [computeTaxNew], rfl,
    best_regime_eq_old_iff _ _, best_regime_eq_new_iff _ _, best_regime_eq_equal_iff _ _,
    fun e he => by simp [grossOrZero, he],
    fun e he => by simp [deductionsTotal, he],
    by norm_num [computeTaxOld],
    by norm_num [computeTaxNew],
    by norm_num [computeNetTax, computeTaxOld, computeTaxNew],
    ?_, by norm_num [computeTaxOld], by norm_num [computeTaxNew],
    by norm_num [computeNetTax, computeTaxOld, computeTaxNew],
    ?_⟩
  · rw [best_regime_eq_new_iff]
    norm_num [computeTaxOld, computeTaxNew]
  · rw [best_regime_eq_equal_iff]
    norm_num [computeTaxOld, computeTaxNew]

/-- C5 witness: the reference example instantiated, hypotheses
discharged at `g = 500000`, `d = 50000`. -/
theorem claim5_tax_calculation_witness :
    (0 : ℚ) ≤ 500000 ∧ (0 : ℚ) ≤ 50000 ∧
    computeNetTax 500000 50000 = 75000 ∧
    best_regime (computeTaxOld 500000 50000) (computeTaxNew 500000) = Regime.new :=
  ⟨by norm_num, by norm_num,
    (claim5_tax_calculation 500000 50000 (by norm_num) (by norm_num)).2.2.2.2.2.2.2.2.2.2.1,
    (claim5_tax_calculation 500000 50000 (by norm_num) (by norm_num)).2.2.2.2.2.2.2.2.2.2.2.1⟩

/-- C6: if a storage failure strikes after the uploaded file is on disk
but before the `documents` row commits, the `except` handler of
`upload_pdf` deletes the just-written file before re-raising: the disk
and store are exactly as before the attempt, the request surfaces an
error, and a reconciliation sweep finds no new orphan. -/
theorem claim6_upload_self_cleaning (db0 : DB) (disk0 : List String)
    (sid fname uname : String) (e : Extracted) (now : Nat) (f : UploadFailures)
    (hfresh : uname ∉ disk0) (hfail : f.save_document_fails = true) :
    (upload_pdf_after_validation db0 disk0 sid fname uname e now f).disk = disk0 ∧
    (upload_pdf_after_validation db0 disk0 sid fname uname e now f).db = db0 ∧
    (upload_pdf_after_validation db0 disk0 sid fname uname e now f).ok = false ∧
    (∀ folder fe d2, find_orphaned_files folder fe
        (upload_pdf_after_validation db0 disk0 sid fname uname e now f).disk d2 =
      find_orphaned_files folder fe disk0 d2) := by
  have hdisk : (disk0 ++ [uname]).filter (fun n => decide (n ≠ uname)) = disk0 := by
    rw [List.filter_append]
    have h1 : disk0.filter (fun n => decide (n ≠ uname)) = disk0 :=
      List.filter_eq_self.mpr
        (fun a ha => decide_eq_true (fun hEq => hfresh (hEq ▸ ha)))
    have h2 : ([uname].filter (fun n => decide (n ≠ uname))) = [] := by simp
    rw [h1, h2, List.append_nil]
  have hr : upload_pdf_after_validation db0 disk0 sid fname uname e now f =
      { db := db0, disk := (disk0 ++ [uname]).filter (fun n => decide (n ≠ uname))
        ok := false } := by
    unfold upload_pdf_after_validation
    rw [hfail]
    rfl
  rw [hr]
  exact ⟨hdisk, rfl, rfl, fun folder fe d2 => by rw [hdisk]⟩

/-- C6 witness: concrete failing upload over a disk holding `"a"`, with
fresh name `"u"`; the attempt leaves disk and store unchanged. -/
theorem claim6_upload_self_cleaning_witness :
    (upload_pdf_after_validation emptyDB ["a"] "s" "x.pdf" "u"
        ⟨[], [], [], none, none, none⟩ 0 ⟨true, false⟩).disk = ["a"] ∧
    (upload_pdf_after_validation emptyDB ["a"] "s" "x.pdf" "u"
        ⟨[], [], [], none, none, none⟩ 0 ⟨true, false⟩).db = emptyDB ∧
    (upload_pdf_after_validation emptyDB ["a"] "s" "x.pdf" "u"
        ⟨[], [], [], none, none, none⟩ 0 ⟨true, false⟩).ok = false := by
  have h := claim6_upload_self_cleaning emptyDB ["a"] "s" "x.pdf" "u"
    ⟨[], [], [], none, none, none⟩ 0 ⟨true, false⟩ (by decide) rfl
  exact ⟨h.1, h.2.1, h.2.2.1⟩

/-- C9: the four record-write accessors are unconditional INSERTs: for
every store and every session identifier — including one with no
`user_sessions` row at all, since the statement quantifies over
arbitrary `db` and never constrains `db.sessions` — the write appends a
row carrying that identifier and returns the generated rowid, so
dependent rows referencing a nonexistent session can be created through
the public accessor interface (no `PRAGMA foreign_keys` is ever issued,
so the declared foreign keys are not enforced). -/
theorem claim9_saves_skip_validation (db : DB)
    (sid fname furl ftype itype fldn fldv msg resp : String)
    (g o n d nt : ℚ) (now : Nat) :
    (save_document db sid fname furl ftype now).2 = db.next_document_id ∧
    (save_document db sid fname furl ftype now).1.documents =
      db.documents ++ [⟨db.next_document_id, sid, fname, furl, ftype, now⟩] ∧
    (save_document db sid fname furl ftype now).1.sessions = db.sessions ∧
    (save_user_input db sid itype fldn fldv now).2 = db.next_user_input_id ∧
    (save_user_input db sid itype fldn fldv now).1.user_inputs =
      db.user_inputs ++ [⟨db.next_user_input_id, sid, itype, fldn, fldv, now⟩] ∧
    (save_tax_calculation db sid g o n d nt now).2 = db.next_tax_calculation_id ∧
    (save_tax_calculation db sid g o n d nt now).1.tax_calculations =
      db.tax_calculations ++ [⟨db.next_tax_calculation_id, sid, g, o, n, d, nt, now⟩] ∧
    (save_ai_conversation db sid msg resp now).2 = db.next_ai_conversation_id ∧
    (save_ai_conversation db sid msg resp now).1.ai_conversations =
      db.ai_conversations ++ [⟨db.next_ai_conversation_id, sid, msg, resp, now⟩] :=
  ⟨rfl, rfl, rfl, rfl, rfl, rfl, rfl, rfl, rfl⟩

/-- C1: under the primary-key invariant of `user_sessions` (distinct
session ids, `hpk`), one expiry sweep removes every session row whose
stored expiry compares below the current time, leaves no row of any of
the four dependent tables referencing a removed identifier, removes the
session rows themselves, and returns exactly the number of session rows
removed. -/
theorem claim1_expire_sweep_complete (db : DB) (now : Nat)
    (hpk : (db.sessions.map (fun s => s.session_id)).Nodup) :
    (∀ s ∈ (cleanup_expired_sessions db now).1.sessions,
      sqlExpiredBefore s.expires_at now = false) ∧
    (∀ s ∈ db.sessions, sqlExpiredBefore s.expires_at now = true →
      (∀ s2 ∈ (cleanup_expired_sessions db now).1.sessions,
        s2.session_id ≠ s.session_id) ∧
      (∀ r ∈ (cleanup_expired_sessions db now).1.documents,
        r.session_id ≠ s.session_id) ∧
      (∀ r ∈ (cleanup_expired_sessions db now).1.user_inputs,
        r.session_id ≠ s.session_id) ∧
      (∀ r ∈ (cleanup_expired_sessions db now).1.tax_calculations,
        r.session_id ≠ s.session_id) ∧
      (∀ r ∈ (cleanup_expired_sessions db now).1.ai_conversations,
        r.session_id ≠ s.session_id)) ∧
    (cleanup_expired_sessions db now).2 =
      db.sessions.length - (cleanup_expired_sessions db now).1.sessions.length := by
  have hdef : cleanup_expired_sessions db now =
      (let ids := (db.sessions.filter
          (fun s => sqlExpiredBefore s.expires_at now)).map (fun s => s.session_id)
       if ids.isEmpty then (db, 0)
       else
        ({ db with
            documents := db.documents.filter (fun r => decide (r.session_id ∉ ids))
            user_inputs := db.user_inputs.filter (fun r => decide (r.session_id ∉ ids))
            tax_calculations :=
              db.tax_calculations.filter (fun r => decide (r.session_id ∉ ids))
            ai_conversations :=
              db.ai_conversations.filter (fun r => decide (r.session_id ∉ ids))
            sessions := db.sessions.filter (fun s => decide (s.session_id ∉ ids)) },
          ids.length)) := rfl
  by_cases hE : ((db.sessions.filter
      (fun s => sqlExpiredBefore s.expires_at now)).map
        (fun s => s.session_id)).isEmpty = true
  · have hfil : db.sessions.filter (fun s => sqlExpiredBefore s.expires_at now) = [] :=
      List.map_eq_nil_iff.mp (List.isEmpty_iff.mp hE)
    have hclean : cleanup_expired_sessions db now = (db, 0) :=
      cleanup_of_no_expired db now hfil
    rw [hclean]
    refine ⟨fun s hs => ?_, fun s hs hsexp => ?_, by simp⟩
    · have := List.filter_eq_nil_iff.mp hfil s hs
      exact Bool.eq_false_iff.mpr this
    · exact absurd hsexp (List.filter_eq_nil_iff.mp hfil s hs)
  · rw [hdef]
    simp only []
    rw [if_neg hE]
    set ids := (db.sessions.filter
        (fun s => sqlExpiredBefore s.expires_at now)).map (fun s => s.session_id)
      with hids
    refine ⟨fun s hs => ?_, fun s hs hsexp => ?_, ?_⟩
    · rcases List.mem_filter.mp hs with ⟨hmem, hdec⟩
      have hnotin : s.session_id ∉ ids := of_decide_eq_true hdec
      cases hps : sqlExpiredBefore s.expires_at now
      · rfl
      · exact absurd (List.mem_map.mpr
          ⟨s, List.mem_filter.mpr ⟨hmem, hps⟩, rfl⟩) hnotin
    · have hin : s.session_id ∈ ids :=
        List.mem_map.mpr ⟨s, List.mem_filter.mpr ⟨hs, hsexp⟩, rfl⟩
      refine ⟨fun r hr => ?_, fun r hr => ?_, fun r hr => ?_, fun r hr => ?_,
        fun r hr => ?_⟩ <;>
        exact fun hEq =>
          (of_decide_eq_true (List.mem_filter.mp hr).2) (hEq ▸ hin)
    · have hcongr : db.sessions.filter (fun s => decide (s.session_id ∉ ids)) =
          db.sessions.filter (fun s => !(sqlExpiredBefore s.expires_at now)) := by
        refine List.filter_congr (fun s hs => ?_)
        cases hps : sqlExpiredBefore s.expires_at now
        · have hnotin : s.session_id ∉ ids := by
            intro hmem_ids
            rcases List.mem_map.mp hmem_ids with ⟨t, htf, hteq⟩
            rcases List.mem_filter.mp htf with ⟨htmem, htexp⟩
            have : t = s := List.inj_on_of_nodup_map hpk htmem hs hteq
            rw [this] at htexp
            exact absurd htexp (by simp [hps])
          simp [hnotin]
        · have hin2 : s.session_id ∈ ids :=
            List.mem_map.mpr ⟨s, List.mem_filter.mpr ⟨hs, hps⟩, rfl⟩
          simp [hin2]
      have hpart := filter_length_partition
        (fun s => sqlExpiredBefore s.expires_at now) db.sessions
      have hlen : ids.length =
          (db.sessions.filter (fun s => sqlExpiredBefore s.expires_at now)).length :=
        List.length_map _ _
      simp only [hcongr, hlen]
      omega

/-- C1 witness: a store with one expired and one live session and one
dependent row per table for the expired session; the sweep at time 5
removes the expired session, its dependents, and reports 1. -/
theorem claim1_expire_sweep_complete_witness :
    (∀ s ∈ (cleanup_expired_sessions
        { emptyDB with
            sessions := [⟨"a", 0, .dt 1⟩, ⟨"b", 0, .dt 100⟩]
            documents := [⟨1, "a", "f.pdf", "/uploads/F", "pay_slip", 0⟩]
            user_inputs := [⟨1, "a", "employee", "name", "x", 0⟩]
            tax_calculations := [⟨1, "a", 0, 0, 0, 0, 0, 0⟩]
            ai_conversations := [⟨1, "a", "q", "r", 0⟩] } 5).1.sessions,
      sqlExpiredBefore s.expires_at 5 = false) ∧
    (cleanup_expired_sessions
        { emptyDB with
            sessions := [⟨"a", 0, .dt 1⟩, ⟨"b", 0, .dt 100⟩]
            documents := [⟨1, "a", "f.pdf", "/uploads/F", "pay_slip", 0⟩]
            user_inputs := [⟨1, "a", "employee", "name", "x", 0⟩]
            tax_calculations := [⟨1, "a", 0, 0, 0, 0, 0, 0⟩]
            ai_conversations := [⟨1, "a", "q", "r", 0⟩] } 5).2 =
      ([⟨"a", 0, .dt 1⟩, ⟨"b", 0, .dt 100⟩] : List SessionRow).length -
        (cleanup_expired_sessions
        { emptyDB with
            sessions := [⟨"a", 0, .dt 1⟩, ⟨"b", 0, .dt 100⟩]
            documents := [⟨1, "a", "f.pdf", "/uploads/F", "pay_slip", 0⟩]
            user_inputs := [⟨1, "a", "employee", "name", "x", 0⟩]
            tax_calculations := [⟨1, "a", 0, 0, 0, 0, 0, 0⟩]
            ai_conversations := [⟨1, "a", "q", "r", 0⟩] } 5).1.sessions.length := by
  have h := claim1_expire_sweep_complete
    { emptyDB with
        sessions := [⟨"a", 0, .dt 1⟩, ⟨"b", 0, .dt 100⟩]
        documents := [⟨1, "a", "f.pdf", "/uploads/F", "pay_slip", 0⟩]
        user_inputs := [⟨1, "a", "employee", "name", "x", 0⟩]
        tax_calculations := [⟨1, "a", 0, 0, 0, 0, 0, 0⟩]
        ai_conversations := [⟨1, "a", "q", "r", 0⟩] } 5 (by decide)
  exact ⟨h.1, h.2.2⟩

/-- C10: `get_session_data` returns the empty aggregate (`none`),
without reading the dependent tables, exactly when `validate_session`
reports the identifier unknown or expired; a populated aggregate is
returned only for a valid session. -/
theorem claim10_get_session_data_gate (db : DB) (sid : String) (now : Nat) :
    (validate_session db sid now = .ok false →
      get_session_data db sid now = .ok none) ∧
    (∀ data, get_session_data db sid now = .ok (some data) →
      validate_session db sid now = .ok true) := by
  constructor
  · intro h
    simp [get_session_data, h]
  · intro data h
    rcases hv : validate_session db sid now with e | b
    · simp [get_session_data, hv] at h
    · cases b
      · simp [get_session_data, hv] at h
      · rfl

/-- C10 witness: the empty store knows no session `"x"`, and the read
returns the empty aggregate. -/
theorem claim10_get_session_data_gate_witness :
    validate_session emptyDB "x" 0 = .ok false ∧
    get_session_data emptyDB "x" 0 = .ok none :=
  ⟨rfl, (claim10_get_session_data_gate emptyDB "x" 0).1 rfl⟩

/-- C8: during a reconciliation sweep the deletion loop is total: every
orphan whose deletion fails is logged (collected in `failed`) and the
loop still attempts every remaining orphan — the surviving disk entries
are exactly the files that are referenced (not orphaned) or whose own
deletion failed, for every orphan list and every failure pattern; no
failure aborts the sweep or escapes to the caller. -/
theorem claim8_sweep_continues_on_failure (folder : String) (folderExists : Bool)
    (disk : List String) (db : DB) (now : Nat) (removeFails : String → Bool) :
    (cleanup_expired_files folder folderExists disk db now removeFails).failed =
      (cleanup_expired_files folder folderExists disk db now
        removeFails).orphaned.filter removeFails ∧
    (cleanup_expired_files folder folderExists disk db now removeFails).disk =
      disk.filter (fun n => removeFails (joinPath folder n) ||
        decide (joinPath folder n ∉
          (cleanup_expired_files folder folderExists disk db now
            removeFails).orphaned)) := by
  simp only [cleanup_expired_files]
  rw [removeOrphanLoop_spec]
  exact ⟨rfl, rfl⟩

/-- C3: orphan computation is exactly the set difference disk minus
referenced names (general part), and on the reference scenario — disk
`{A, B, C}`, store referencing exactly `{A, B}`, no expired sessions —
the sweep removes exactly `C`, leaves `A` and `B` untouched, and an
immediately following second sweep removes nothing. -/
theorem claim3_reconciliation_exact (folder : String) (db : DB) (now now2 : Nat)
    (h1 : cleanup_expired_sessions db now = (db, 0))
    (h2 : cleanup_expired_sessions db now2 = (db, 0))
    (href : ∀ nm, nm ∈ referencedNames db ↔ (nm = "A" ∨ nm = "B")) :
    (∀ (disk : List String) (d2 : DB) (f : String),
      f ∈ find_orphaned_files folder true disk d2 ↔
        ∃ nm, nm ∈ disk ∧ nm ∉ referencedNames d2 ∧ f = joinPath folder nm) ∧
    (cleanup_expired_files folder true ["A", "B", "C"] db now
        (fun _ => false)).orphaned = [joinPath folder "C"] ∧
    (cleanup_expired_files folder true ["A", "B", "C"] db now
        (fun _ => false)).disk = ["A", "B"] ∧
    (cleanup_expired_files folder true ["A", "B", "C"] db now
        (fun _ => false)).db = db ∧
    (cleanup_expired_files folder true ["A", "B"] db now2
        (fun _ => false)).orphaned = [] ∧
    (cleanup_expired_files folder true ["A", "B"] db now2
        (fun _ => false)).disk = ["A", "B"] ∧
    (cleanup_expired_files folder true ["A", "B"] db now2
        (fun _ => false)).db = db := by
  have hA : "A" ∈ referencedNames db := (href "A").mpr (Or.inl rfl)
  have hB : "B" ∈ referencedNames db := (href "B").mpr (Or.inr rfl)
  have hC : "C" ∉ referencedNames db := fun h => by
    rcases (href "C").mp h with h' | h' <;> exact absurd h' (by decide)
  have horph1 : find_orphaned_files folder true ["A", "B", "C"] db =
      [joinPath folder "C"] := by
    have hfil : (["A", "B", "C"] : List String).filter
        (fun n => decide (n ∉ referencedNames db)) = ["C"] := by
      simp [List.filter_cons, hA, hB, hC]
    show (((["A", "B", "C"] : List String).filter
        (fun n => decide (n ∉ referencedNames db))).map (fun n => joinPath folder n)) =
      [joinPath folder "C"]
    rw [hfil]
    rfl
  have horph2 : find_orphaned_files folder true ["A", "B"] db = [] := by
    have hfil : (["A", "B"] : List String).filter
        (fun n => decide (n ∉ referencedNames db)) = [] := by
      simp [List.filter_cons, hA, hB]
    show (((["A", "B"] : List String).filter
        (fun n => decide (n ∉ referencedNames db))).map (fun n => joinPath folder n)) = []
    rw [hfil]
    rfl
  refine ⟨fun disk d2 f => ?_, ?_, ?_, ?_, ?_, ?_, ?_⟩
  · have hfo : find_orphaned_files folder true disk d2 =
        (disk.filter (fun n => decide (n ∉ referencedNames d2))).map
          (fun n => joinPath folder n) := rfl
    rw [hfo]
    constructor
    · intro hf
      rcases List.mem_map.mp hf with ⟨nm, hnm, hjeq⟩
      rcases List.mem_filter.mp hnm with ⟨hdisk, hdec⟩
      exact ⟨nm, hdisk, of_decide_eq_true hdec, hjeq.symm⟩
    · rintro ⟨nm, hdisk, hnot, hfeq⟩
      exact List.mem_map.mpr
        ⟨nm, List.mem_filter.mpr ⟨hdisk, decide_eq_true hnot⟩, hfeq.symm⟩
  · simp only [cleanup_expired_files]
    rw [h1]
    exact horph1
  · simp only [cleanup_expired_files]
    rw [h1, horph1, removeOrphanLoop_spec]
    simp [List.filter_cons, List.mem_singleton, joinPath_left_inj]
  · simp only [cleanup_expired_files]
    rw [h1]
  · simp only [cleanup_expired_files]
    rw [h2]
    exact horph2
  · simp only [cleanup_expired_files]
    rw [h2, horph2, removeOrphanLoop_spec]
    simp
  · simp only [cleanup_expired_files]
    rw [h2]

/-- Concrete store for the C3 witness: two documents whose locators
reference exactly the file names `A` and `B`, and no sessions, so the
expiry sweep removes nothing. -/
def twoDocsDB : DB :=
  { emptyDB with
      documents := [⟨1, "s", "a.pdf", "/uploads/A", "pay_slip", 0⟩,
        ⟨2, "s", "b.pdf", "/uploads/B", "pay_slip", 0⟩]
      next_document_id := 3 }

/-- C3 witness: the scenario instantiated on `twoDocsDB` with folder
`"up"`; the first sweep removes exactly `C` and the second removes
nothing. -/
theorem claim3_reconciliation_exact_witness :
    (cleanup_expired_files "up" true ["A", "B", "C"] twoDocsDB 0
        (fun _ => false)).orphaned = [joinPath "up" "C"] ∧
    (cleanup_expired_files "up" true ["A", "B", "C"] twoDocsDB 0
        (fun _ => false)).disk = ["A", "B"] ∧
    (cleanup_expired_files "up" true ["A", "B"] twoDocsDB 0
        (fun _ => false)).orphaned = [] ∧
    (cleanup_expired_files "up" true ["A", "B"] twoDocsDB 0
        (fun _ => false)).disk = ["A", "B"] := by
  have h := claim3_reconciliation_exact "up" twoDocsDB 0 0 rfl rfl
    (by intro nm; show nm ∈ ["A", "B"] ↔ (nm = "A" ∨ nm = "B"); simp)
  exact ⟨h.2.1, h.2.2.1, h.2.2.2.2.1, h.2.2.2.2.2.1⟩

/-- C7: for a valid session with no prior dependent rows, inserting
three rows in order into each dependent table (at increasing row
timestamps, as `CURRENT_TIMESTAMP` yields), `get_session_data` returns
the conversation entries oldest-first — exactly `[M1, M2, M3]` — while
the documents, user-input field records, and calculations are each
returned most-recent-first. -/
theorem claim7_read_ordering (db : DB) (sid : String) (now : Nat)
    (t1 t2 t3 : Nat) (m1 r1 m2 r2 m3 r3 : String) (g1 g2 g3 : ℚ)
    (f1 f2 f3 n1 v1 n2 v2 n3 v3 : String)
    (hvalid : validate_session db sid now = .ok true)
    (hconv : db.ai_conversations.filter (fun c => decide (c.session_id = sid)) = [])
    (hcalc : db.tax_calculations.filter (fun c => decide (c.session_id = sid)) = [])
    (hdoc : db.documents.filter (fun d => decide (d.session_id = sid)) = [])
    (hinp : db.user_inputs.filter (fun r => decide (r.session_id = sid)) = [])
    (h12 : t1 < t2) (h23 : t2 < t3) :
    ∃ data,
      get_session_data
        (fullSessionScenario db sid m1 r1 m2 r2 m3 r3 g1 g2 g3
          f1 f2 f3 n1 v1 n2 v2 n3 v3 t1 t2 t3) sid now = .ok (some data) ∧
      data.ai_conversations.map (fun c => (c.user_message, c.ai_response)) =
        [(m1, r1), (m2, r2), (m3, r3)] ∧
      data.ai_conversations.map (fun c => c.timestamp) = [t1, t2, t3] ∧
      data.tax_calculations.map (fun c => c.gross_income) = [g3, g2, g1] ∧
      data.tax_calculations.map (fun c => c.calculation_timestamp) = [t3, t2, t1] ∧
      data.documents.map (fun d => d.file_name) = [f3, f2, f1] ∧
      data.documents.map (fun d => d.upload_timestamp) = [t3, t2, t1] ∧
      data.user_inputs.map (fun r => r.field_name) = [n3, n2, n1] ∧
      data.user_inputs.map (fun r => r.timestamp) = [t3, t2, t1] := by
  have hsess : (fullSessionScenario db sid m1 r1 m2 r2 m3 r3 g1 g2 g3
      f1 f2 f3 n1 v1 n2 v2 n3 v3 t1 t2 t3).sessions = db.sessions := by
    simp [fullSessionScenario, insertThreeInputs, insertThreeDocs,
      insertThreeCalcs, insertThreeConvs, save_ai_conversation,
      save_tax_calculation, save_document, save_user_input]
  have hvF : validate_session
      (fullSessionScenario db sid m1 r1 m2 r2 m3 r3 g1 g2 g3
        f1 f2 f3 n1 v1 n2 v2 n3 v3 t1 t2 t3) sid now = .ok true := by
    rw [validate_session_congr _ db sid now hsess]
    exact hvalid
  have hAi : (fullSessionScenario db sid m1 r1 m2 r2 m3 r3 g1 g2 g3
      f1 f2 f3 n1 v1 n2 v2 n3 v3 t1 t2 t3).ai_conversations =
      db.ai_conversations ++
        [⟨db.next_ai_conversation_id, sid, m1, r1, t1⟩,
         ⟨db.next_ai_conversation_id + 1, sid, m2, r2, t2⟩,
         ⟨db.next_ai_conversation_id + 1 + 1, sid, m3, r3, t3⟩] := by
    simp [fullSessionScenario, insertThreeInputs, insertThreeDocs,
      insertThreeCalcs, insertThreeConvs, save_ai_conversation,
      save_tax_calculation, save_document, save_user_input]
  have hCa : (fullSessionScenario db sid m1 r1 m2 r2 m3 r3 g1 g2 g3
      f1 f2 f3 n1 v1 n2 v2 n3 v3 t1 t2 t3).tax_calculations =
      db.tax_calculations ++
        [⟨db.next_tax_calculation_id, sid, g1, 0, 0, 0, 0, t1⟩,
         ⟨db.next_tax_calculation_id + 1, sid, g2, 0, 0, 0, 0, t2⟩,
         ⟨db.next_tax_calculation_id + 1 + 1, sid, g3, 0, 0, 0, 0, t3⟩] := by
    simp [fullSessionScenario, insertThreeInputs, insertThreeDocs,
      insertThreeCalcs, insertThreeConvs, save_ai_conversation,
      save_tax_calculation, save_document, save_user_input]
  have hDo : (fullSessionScenario db sid m1 r1 m2 r2 m3 r3 g1 g2 g3
      f1 f2 f3 n1 v1 n2 v2 n3 v3 t1 t2 t3).documents =
      db.documents ++
        [⟨db.next_document_id, sid, f1, "/uploads/" ++ f1, "pay_slip", t1⟩,
         ⟨db.next_document_id + 1, sid, f2, "/uploads/" ++ f2, "pay_slip", t2⟩,
         ⟨db.next_document_id + 1 + 1, sid, f3, "/uploads/" ++ f3, "pay_slip", t3⟩] := by
    simp [fullSessionScenario, insertThreeInputs, insertThreeDocs,
      insertThreeCalcs, insertThreeConvs, save_ai_conversation,
      save_tax_calculation, save_document, save_user_input]
  have hUi : (fullSessionScenario db sid m1 r1 m2 r2 m3 r3 g1 g2 g3
      f1 f2 f3 n1 v1 n2 v2 n3 v3 t1 t2 t3).user_inputs =
      db.user_inputs ++
        [⟨db.next_user_input_id, sid, "employee", n1, v1, t1⟩,
         ⟨db.next_user_input_id + 1, sid, "employee", n2, v2, t2⟩,
         ⟨db.next_user_input_id + 1 + 1, sid, "employee", n3, v3, t3⟩] := by
    simp [fullSessionScenario, insertThreeInputs, insertThreeDocs,
      insertThreeCalcs, insertThreeConvs, save_ai_conversation,
      save_tax_calculation, save_document, save_user_input]
  have hfAi : (fullSessionScenario db sid m1 r1 m2 r2 m3 r3 g1 g2 g3
      f1 f2 f3 n1 v1 n2 v2 n3 v3 t1 t2 t3).ai_conversations.filter
        (fun c => decide (c.session_id = sid)) =
      [⟨db.next_ai_conversation_id, sid, m1, r1, t1⟩,
       ⟨db.next_ai_conversation_id + 1, sid, m2, r2, t2⟩,
       ⟨db.next_ai_conversation_id + 1 + 1, sid, m3, r3, t3⟩] := by
    rw [hAi, List.filter_append, hconv]
    simp
  have hfCa : (fullSessionScenario db sid m1 r1 m2 r2 m3 r3 g1 g2 g3
      f1 f2 f3 n1 v1 n2 v2 n3 v3 t1 t2 t3).tax_calculations.filter
        (fun c => decide (c.session_id = sid)) =
      [⟨db.next_tax_calculation_id, sid, g1, 0, 0, 0, 0, t1⟩,
       ⟨db.next_tax_calculation_id + 1, sid, g2, 0, 0, 0, 0, t2⟩,
       ⟨db.next_tax_calculation_id + 1 + 1, sid, g3, 0, 0, 0, 0, t3⟩] := by
    rw [hCa, List.filter_append, hcalc]
    simp
  have hfDo : (fullSessionScenario db sid m1 r1 m2 r2 m3 r3 g1 g2 g3
      f1 f2 f3 n1 v1 n2 v2 n3 v3 t1 t2 t3).documents.filter
        (fun d => decide (d.session_id = sid)) =
      [⟨db.next_document_id, sid, f1, "/uploads/" ++ f1, "pay_slip", t1⟩,
       ⟨db.next_document_id + 1, sid, f2, "/uploads/" ++ f2, "pay_slip", t2⟩,
       ⟨db.next_document_id + 1 + 1, sid, f3, "/uploads/" ++ f3, "pay_slip", t3⟩] := by
    rw [hDo, List.filter_append, hdoc]
    simp
  have hfUi : (fullSessionScenario db sid m1 r1 m2 r2 m3 r3 g1 g2 g3
      f1 f2 f3 n1 v1 n2 v2 n3 v3 t1 t2 t3).user_inputs.filter
        (fun r => decide (r.session_id = sid)) =
      [⟨db.next_user_input_id, sid, "employee", n1, v1, t1⟩,
       ⟨db.next_user_input_id + 1, sid, "employee", n2, v2, t2⟩,
       ⟨db.next_user_input_id + 1 + 1, sid, "employee", n3, v3, t3⟩] := by
    rw [hUi, List.filter_append, hinp]
    simp
  have hsortAi : orderByAsc (fun c => c.timestamp)
      ([⟨db.next_ai_conversation_id, sid, m1, r1, t1⟩,
        ⟨db.next_ai_conversation_id + 1, sid, m2, r2, t2⟩,
        ⟨db.next_ai_conversation_id + 1 + 1, sid, m3, r3, t3⟩] : List ConvRow) =
      [⟨db.next_ai_conversation_id, sid, m1, r1, t1⟩,
       ⟨db.next_ai_conversation_id + 1, sid, m2, r2, t2⟩,
       ⟨db.next_ai_conversation_id + 1 + 1, sid, m3, r3, t3⟩] := by
    simp [orderByAsc, List.insertionSort, List.orderedInsert, h12.le, h23.le,
      (h12.trans h23).le]
  have hn21 : ¬ (t2 ≤ t1) := not_le.mpr h12
  have hn31 : ¬ (t3 ≤ t1) := not_le.mpr (h12.trans h23)
  have hn32 : ¬ (t3 ≤ t2) := not_le.mpr h23
  have hsortCa : orderByDesc (fun c => c.calculation_timestamp)
      ([⟨db.next_tax_calculation_id, sid, g1, 0, 0, 0, 0, t1⟩,
        ⟨db.next_tax_calculation_id + 1, sid, g2, 0, 0, 0, 0, t2⟩,
        ⟨db.next_tax_calculation_id + 1 + 1, sid, g3, 0, 0, 0, 0, t3⟩] : List CalcRow) =
      [⟨db.next_tax_calculation_id + 1 + 1, sid, g3, 0, 0, 0, 0, t3⟩,
       ⟨db.next_tax_calculation_id + 1, sid, g2, 0, 0, 0, 0, t2⟩,
       ⟨db.next_tax_calculation_id, sid, g1, 0, 0, 0, 0, t1⟩] := by
    simp [orderByDesc, List.insertionSort, List.orderedInsert, hn21, hn31, hn32]
  have hsortDo : orderByDesc (fun d => d.upload_timestamp)
      ([⟨db.next_document_id, sid, f1, "/uploads/" ++ f1, "pay_slip", t1⟩,
        ⟨db.next_document_id + 1, sid, f2, "/uploads/" ++ f2, "pay_slip", t2⟩,
        ⟨db.next_document_id + 1 + 1, sid, f3, "/uploads/" ++ f3, "pay_slip", t3⟩] :
        List DocumentRow) =
      [⟨db.next_document_id + 1 + 1, sid, f3, "/uploads/" ++ f3, "pay_slip", t3⟩,
       ⟨db.next_document_id + 1, sid, f2, "/uploads/" ++ f2, "pay_slip", t2⟩,
       ⟨db.next_document_id, sid, f1, "/uploads/" ++ f1, "pay_slip", t1⟩] := by
    simp [orderByDesc, List.insertionSort, List.orderedInsert, hn21, hn31, hn32]
  have hsortUi : orderByDesc (fun r => r.timestamp)
      ([⟨db.next_user_input_id, sid, "employee", n1, v1, t1⟩,
        ⟨db.next_user_input_id + 1, sid, "employee", n2, v2, t2⟩,
        ⟨db.next_user_input_id + 1 + 1, sid, "employee", n3, v3, t3⟩] :
        List UserInputRow) =
      [⟨db.next_user_input_id + 1 + 1, sid, "employee", n3, v3, t3⟩,
       ⟨db.next_user_input_id + 1, sid, "employee", n2, v2, t2⟩,
       ⟨db.next_user_input_id, sid, "employee", n1, v1, t1⟩] := by
    simp [orderByDesc, List.insertionSort, List.orderedInsert, hn21, hn31, hn32]
  refine ⟨⟨[⟨db.next_document_id + 1 + 1, sid, f3, "/uploads/" ++ f3, "pay_slip", t3⟩,
        ⟨db.next_document_id + 1, sid, f2, "/uploads/" ++ f2, "pay_slip", t2⟩,
        ⟨db.next_document_id, sid, f1, "/uploads/" ++ f1, "pay_slip", t1⟩],
      [⟨db.next_user_input_id + 1 + 1, sid, "employee", n3, v3, t3⟩,
        ⟨db.next_user_input_id + 1, sid, "employee", n2, v2, t2⟩,
        ⟨db.next_user_input_id, sid, "employee", n1, v1, t1⟩],
      [⟨db.next_tax_calculation_id + 1 + 1, sid, g3, 0, 0, 0, 0, t3⟩,
        ⟨db.next_tax_calculation_id + 1, sid, g2, 0, 0, 0, 0, t2⟩,
        ⟨db.next_tax_calculation_id, sid, g1, 0, 0, 0, 0, t1⟩],
      [⟨db.next_ai_conversation_id, sid, m1, r1, t1⟩,
        ⟨db.next_ai_conversation_id + 1, sid, m2, r2, t2⟩,
        ⟨db.next_ai_conversation_id + 1 + 1, sid, m3, r3, t3⟩]⟩,
    ?_, rfl, rfl, rfl, rfl, rfl, rfl, rfl, rfl⟩
  simp only [get_session_data, hvF]
  rw [hfAi, hsortAi, hfCa, hsortCa, hfDo, hsortDo, hfUi, hsortUi]

/-- C7 witness: the scenario instantiated on a store with one valid
session `"s"` and timestamps 1, 2, 3, covering all four tables. -/
theorem claim7_read_ordering_witness :
    ∃ data,
      get_session_data
        (fullSessionScenario { emptyDB with sessions := [⟨"s", 0, .dt 100⟩] }
          "s" "m1" "r1" "m2" "r2" "m3" "r3" 10 20 30
          "fa" "fb" "fc" "na" "va" "nb" "vb" "nc" "vc" 1 2 3) "s" 0 =
        .ok (some data) ∧
      data.ai_conversations.map (fun c => (c.user_message, c.ai_response)) =
        [("m1", "r1"), ("m2", "r2"), ("m3", "r3")] ∧
      data.ai_conversations.map (fun c => c.timestamp) = [1, 2, 3] ∧
      data.tax_calculations.map (fun c => c.gross_income) = [30, 20, 10] ∧
      data.tax_calculations.map (fun c => c.calculation_timestamp) = [3, 2, 1] ∧
      data.documents.map (fun d => d.file_name) = ["fc", "fb", "fa"] ∧
      data.documents.map (fun d => d.upload_timestamp) = [3, 2, 1] ∧
      data.user_inputs.map (fun r => r.field_name) = ["nc", "nb", "na"] ∧
      data.user_inputs.map (fun r => r.timestamp) = [3, 2, 1] :=
  claim7_read_ordering { emptyDB with sessions := [⟨"s", 0, .dt 100⟩] }
    "s" 0 1 2 3 "m1" "r1" "m2" "r2" "m3" "r3" 10 20 30
    "fa" "fb" "fc" "na" "va" "nb" "vb" "nc" "vc"
    rfl rfl rfl rfl rfl (by decide) (by decide)

end TaxAdvisor
